import Mathlib

/-!
# Verification of the Air-Quality-Analysis core against its design spec

Shallow embedding of the analytical core of the repository
(`air_quality/statistics.py`, `air_quality/extremes.py`,
`air_quality/trends.py`) and proofs of the spec's claims about it.

Modelling conventions:
* Python floats are modelled by `ℚ`.  Every constant appearing in the
  code is a short decimal, represented exactly; all the claims are about
  order comparisons and exact arithmetic on such constants, where the
  rational model and IEEE doubles agree.
* A possibly-missing value (`NaN` in the NumPy/pandas code) is
  `Option ℚ`, with `none` for `NaN`.  pandas' skip-NaN aggregations
  become `filterMap id`.
* Python exceptions become `Except Err`, with `Err` the spec's logical
  error kinds (§7); exception message strings are not modelled.
* A pandas `DataFrame` with a fixed schema becomes a `List` of a row
  structure; the `'column' in df.columns` checks are vacuously true in
  the typed embedding and are therefore dropped.
* `DataFrame.sort_values` is modelled by `List.insertionSort` with the
  corresponding key relation: the semantics the code relies on is
  "output is a permutation of the input, sorted by the key", which
  `insertionSort` has; tie order among equal keys is unspecified in
  both.
-/

namespace AirQuality

/-- The spec's logical error kinds (§7): each `raise` in the source is
mapped to the corresponding constructor. -/
inductive Err where
  | invalidInput
  | invalidWindow
  | invalidThreshold
  | invalidPercentile
  | invalidSeason
  | emptyInput
  | allMissing
  | noDataForSeason
  | insufficientData
  | missingColumn
  | lengthMismatch
  | unableToCalculate
  deriving DecidableEq, Repr

/-- A possibly-missing measurement: `none` models NaN. -/
abbrev Val := Option ℚ

instance {ε α : Type} [DecidableEq ε] [DecidableEq α] :
    DecidableEq (Except ε α) := fun a b =>
  match a, b with
  | .ok x, .ok y =>
      if h : x = y then .isTrue (by rw [h]) else .isFalse (by simp [h])
  | .error x, .error y =>
      if h : x = y then .isTrue (by rw [h]) else .isFalse (by simp [h])
  | .ok _, .error _ => .isFalse (by simp)
  | .error _, .ok _ => .isFalse (by simp)

/-! ## statistics.py -/

/-- `calculate_daily_mean` (statistics.py:12-41): raises on empty input,
drops NaN, raises if everything was NaN, else arithmetic mean. -/
def calculate_daily_mean (values : List Val) : Except Err ℚ :=
  if values.length = 0 then .error .emptyInput
  else
    let values_clean := values.filterMap id
    if values_clean.length = 0 then .error .allMissing
    else .ok (values_clean.sum / values_clean.length)

/-- `calculate_rolling_average` (statistics.py:44-88).  The window is an
arbitrary integer as in Python; after the guards it is a positive size.
The Python loop fills index `i ≥ window-1` with the mean of the trailing
slice `values[i-window+1 : i+1]` when that slice is NaN-free, and leaves
NaN (`none`) everywhere else; here the output is built index by index. -/
def calculate_rolling_average (values : List Val) (window : ℤ) :
    Except Err (List Val) :=
  if window < 1 then .error .invalidWindow
  else if (values.length : ℤ) < window then .error .invalidWindow
  else
    let w := window.toNat
    .ok ((List.range values.length).map fun i =>
      if i + 1 < w then none
      else
        let window_values := (values.drop (i + 1 - w)).take w
        if window_values.any fun v => v.isNone then none
        else some (((window_values.filterMap id).sum / w : ℚ)))

/-- `calculate_exceedance_count` (statistics.py:91-118): drop NaN, count
entries strictly greater than the threshold.  Returns a plain count (0
on empty input — the repo's tests pin this down). -/
def calculate_exceedance_count (values : List Val) (threshold : ℚ) : ℕ :=
  (values.filterMap id).countP fun v => decide (threshold < v)

/-- One EPA PM2.5 breakpoint band of `calculate_aqi`
(statistics.py:165-178). -/
structure Breakpoint where
  c_low : ℚ
  c_high : ℚ
  i_low : ℤ
  i_high : ℤ
  category : String
  color : String
  health_message : String
  deriving DecidableEq, Repr

/-- The breakpoint table of `calculate_aqi` (statistics.py:165-178). -/
def breakpoints : List Breakpoint :=
  [ ⟨0.0, 12.0, 0, 50, "Good", "#00E400",
      "Air quality is satisfactory."⟩,
    ⟨12.1, 35.4, 51, 100, "Moderate", "#FFFF00",
      "Acceptable for most, but sensitive groups may be affected."⟩,
    ⟨35.5, 55.4, 101, 150, "Unhealthy for Sensitive Groups", "#FF7E00",
      "Sensitive groups may experience health effects."⟩,
    ⟨55.5, 150.4, 151, 200, "Unhealthy", "#FF0000",
      "Everyone may begin to experience health effects."⟩,
    ⟨150.5, 250.4, 201, 300, "Very Unhealthy", "#8F3F97",
      "Health alert: everyone may experience serious effects."⟩,
    ⟨250.5, 500.4, 301, 500, "Hazardous", "#7E0023",
      "Health warnings of emergency conditions."⟩ ]

/-- Floor of a rational, computed from its reduced fraction. -/
def ratFloor (q : ℚ) : ℤ := q.num.fdiv (q.den : ℤ)

/-- Python's built-in `round` (round-half-to-even, "banker's rounding"),
as used by `int(round(aqi))` in `calculate_aqi`. -/
def pyRound (q : ℚ) : ℤ :=
  let f := ratFloor q
  if q - f < 1/2 then f
  else if 1/2 < q - f then f + 1
  else if f % 2 = 0 then f else f + 1

/-- The band test `c_low <= pm25_value <= c_high` of the loop in
`calculate_aqi` (statistics.py:181-182). -/
def bandMatches (pm25_value : ℚ) (b : Breakpoint) : Bool :=
  decide (b.c_low ≤ pm25_value) && decide (pm25_value ≤ b.c_high)

/-- Result record of `calculate_aqi` (statistics.py:187-192). -/
structure AQIResult where
  aqi : ℤ
  category : String
  color : String
  health_message : String
  deriving DecidableEq, Repr

/-- `calculate_aqi` (statistics.py:121-207).  A NaN argument is outside
the `ℚ` domain (the NaN guard collapses to the negativity check); the
first matching band is interpolated; above 500.4 the index is clamped to
500; if nothing applies the final "Unable to calculate AQI" `raise` is
reached. -/
def calculate_aqi (pm25_value : ℚ) : Except Err AQIResult :=
  if pm25_value < 0 then .error .invalidInput
  else
    match breakpoints.find? (bandMatches pm25_value) with
    | some b =>
        .ok { aqi := pyRound
                (((b.i_high - b.i_low : ℤ) : ℚ) / (b.c_high - b.c_low)
                  * (pm25_value - b.c_low) + (b.i_low : ℚ))
              category := b.category
              color := b.color
              health_message := b.health_message }
    | none =>
        if 500.4 < pm25_value then
          .ok { aqi := 500
                category := "Hazardous"
                color := "#7E0023"
                health_message :=
                  "Health warnings of emergency conditions. Entire population more likely to be affected." }
        else .error .unableToCalculate

/-! ## extremes.py -/

/-- A row of the extremes `DataFrame`: the `'Date'` column as an ordinal
day number (consecutive calendar days differ by 1, and subtracting two
dates gives the day difference, as for pandas timestamps), and the
`'PM2.5'` column, possibly NaN. -/
structure Obs where
  date : ℤ
  pm : Val
  deriving DecidableEq, Repr

/-- The exceedance mask `df['PM2.5'] > threshold` (extremes.py:167); a
pandas comparison against NaN is `False`. -/
def exceeds (threshold : ℚ) (o : Obs) : Bool :=
  match o.pm with
  | some v => decide (threshold < v)
  | none => false

/-- Key order of `df.sort_values('Date')` (extremes.py:164). -/
def dateLe (a b : Obs) : Prop := a.date ≤ b.date

instance : DecidableRel dateLe :=
  fun a b => inferInstanceAs (Decidable (a.date ≤ b.date))

instance : IsTotal Obs dateLe := ⟨fun a b => Int.le_total a.date b.date⟩

instance : IsTrans Obs dateLe := ⟨fun _ _ _ => Int.le_trans⟩

/-- Key order of `sort_values('PM2.5', ascending=False)`
(extremes.py:57): value descending.  A missing value is compared as 0;
the rows this order is ever applied to have already been filtered to
strictly positive, non-missing values. -/
def valGe (a b : Obs) : Prop := b.pm.getD 0 ≤ a.pm.getD 0

instance : DecidableRel valGe :=
  fun a b => inferInstanceAs (Decidable (b.pm.getD 0 ≤ a.pm.getD 0))

instance : IsTotal Obs valGe := ⟨fun a b => le_total (b.pm.getD 0) (a.pm.getD 0)⟩

instance : IsTrans Obs valGe := ⟨fun _ _ _ h h' => le_trans h' h⟩

/-- `identify_extremes_threshold` (extremes.py:14-59): reject negative
thresholds and empty frames, keep the rows strictly above the threshold,
sort them by value descending.  (The `'Date'`/`'PM2.5'` column-presence
check is vacuous in the typed embedding.) -/
def identify_extremes_threshold (df : List Obs) (threshold : ℚ) :
    Except Err (List Obs) :=
  if threshold < 0 then .error .invalidThreshold
  else if df.isEmpty then .error .emptyInput
  else
    let extremes := df.filter (exceeds threshold)
    .ok (extremes.insertionSort valGe)

/-- Partition of a list into the maximal blocks of consecutive elements
satisfying `p`, discarding the elements that do not satisfy `p`.  This is
the shallow embedding of the mask/`cumsum`-of-changes/`groupby` idiom of
`identify_consecutive_exceedances` (extremes.py:166-199): the pandas code
tags every row with the number of mask flips before it, keeps the rows
where the mask holds and groups them by tag; those groups are exactly the
maximal consecutive runs of mask-true rows, produced in positional
order. -/
def consecRuns (p : α → Bool) : List α → List (List α)
  | [] => []
  | x :: xs =>
    if p x then (x :: xs.takeWhile p) :: consecRuns p (xs.dropWhile p)
    else consecRuns p xs
termination_by l => l.length
decreasing_by
  · exact Nat.lt_succ_of_le (List.dropWhile_sublist p).length_le
  · exact Nat.lt_succ_self _

/-- One output row of `identify_consecutive_exceedances`
(extremes.py:186-188 / 193-199). -/
structure Episode where
  start_date : ℤ
  end_date : ℤ
  duration : ℕ
  max_pm25 : ℚ
  mean_pm25 : ℚ
  deriving DecidableEq, Repr

/-- The non-missing values of a group of rows; pandas `max()`/`mean()`
skip NaN. -/
def vals (run : List Obs) : List ℚ := run.filterMap Obs.pm

/-- pandas `Series.max()` over a group's values.  The 0 default for an
empty list never arises: every group is a non-empty run of rows whose
values strictly exceed a non-negative threshold, so the maximum is the
true maximum. -/
def listMax : List ℚ → ℚ
  | [] => 0
  | x :: xs => max x (listMax xs)

/-- One episode record built from a group of rows (extremes.py:193-199):
first date, last date, row count, max and mean of the values. -/
def mkEpisode (run : List Obs) : Episode :=
  { start_date := (run.head?.map Obs.date).getD 0
    end_date := (run.getLast?.map Obs.date).getD 0
    duration := run.length
    max_pm25 := listMax (vals run)
    mean_pm25 := (vals run).sum / (vals run).length }

/-- Key order of `sort_values(['duration', 'max_pm25'],
ascending=[False, False])` (extremes.py:204-207): duration descending,
then maximum value descending. -/
def epLe (e f : Episode) : Prop :=
  f.duration < e.duration ∨ (e.duration = f.duration ∧ f.max_pm25 ≤ e.max_pm25)

instance : DecidableRel epLe := fun e f =>
  inferInstanceAs (Decidable
    (f.duration < e.duration ∨ (e.duration = f.duration ∧ f.max_pm25 ≤ e.max_pm25)))

instance : IsTotal Episode epLe := by
  constructor
  intro a b
  rcases Nat.lt_trichotomy a.duration b.duration with h | h | h
  · exact Or.inr (Or.inl h)
  · rcases le_total a.max_pm25 b.max_pm25 with h' | h'
    · exact Or.inr (Or.inr ⟨h.symm, h'⟩)
    · exact Or.inl (Or.inr ⟨h, h'⟩)
  · exact Or.inl (Or.inl h)

instance : IsTrans Episode epLe := by
  constructor
  intro a b c hab hbc
  rcases hab with h1 | ⟨h1, h1'⟩ <;> rcases hbc with h2 | ⟨h2, h2'⟩
  · exact Or.inl (h2.trans h1)
  · exact Or.inl (by omega)
  · exact Or.inl (by omega)
  · exact Or.inr ⟨h1.trans h2, h2'.trans h1'⟩

/-- `identify_consecutive_exceedances` (extremes.py:115-209): reject
negative thresholds and empty frames, sort by date, split the rows whose
value strictly exceeds the threshold into maximal consecutive runs, turn
each run into an episode record and sort the episodes by duration then
maximum, both descending.  Returns the empty list when nothing exceeds
(extremes.py:184-188). -/
def identify_consecutive_exceedances (df : List Obs) (threshold : ℚ) :
    Except Err (List Episode) :=
  if threshold < 0 then .error .invalidThreshold
  else if df.isEmpty then .error .emptyInput
  else
    let df_sorted := df.insertionSort dateLe
    let results := (consecRuns (exceeds threshold) df_sorted).map mkEpisode
    .ok (results.insertionSort epLe)

/-- Gapless daily series: each observation is dated exactly one day
after the previous one. -/
def daily (a b : Obs) : Prop := b.date = a.date + 1

/-- The 7-day example series of the spec (§8) and of the repo's
`test_consecutive_dates_correct`: values `[10,40,45,50,15,60,65]` on
seven consecutive days, numbered 1..7. -/
def ex7 : List Obs :=
  [⟨1, some 10⟩, ⟨2, some 40⟩, ⟨3, some 45⟩, ⟨4, some 50⟩,
   ⟨5, some 15⟩, ⟨6, some 60⟩, ⟨7, some 65⟩]

/-- The 10-day example series of the spec (§8): values `[10,20,...,100]`
on ten consecutive days, numbered 1..10. -/
def ex10 : List Obs :=
  [⟨1, some 10⟩, ⟨2, some 20⟩, ⟨3, some 30⟩, ⟨4, some 40⟩, ⟨5, some 50⟩,
   ⟨6, some 60⟩, ⟨7, some 70⟩, ⟨8, some 80⟩, ⟨9, some 90⟩, ⟨10, some 100⟩]

/-! ## trends.py -/

/-- A calendar date of the trends `DataFrame`'s `'date'` column; only
the month is ever consumed by `calculate_seasonal_average`
(`df['date'].dt.month`). -/
structure TDate where
  year : ℤ
  month : ℕ
  day : ℕ
  deriving DecidableEq, Repr

/-- A row of the trends `DataFrame`: columns `'date'` and `'value'`. -/
structure TRow where
  date : TDate
  value : Val
  deriving DecidableEq, Repr

/-- The `season_months` dictionary of `calculate_seasonal_average`
(trends.py:168-173). -/
def season_months (s : String) : List ℕ :=
  if s = "winter" then [12, 1, 2]
  else if s = "spring" then [3, 4, 5]
  else if s = "summer" then [6, 7, 8]
  else if s = "fall" then [9, 10, 11]
  else []

/-- Body of `calculate_seasonal_average` (trends.py:103-187) after the
`season.lower()` normalisation: validate the season name, map the
`'autumn'` alias to `'fall'`, keep the rows whose month lies in the
season, raise if no row matches, else take the pandas `mean()` of the
`'value'` column — which skips NaN and yields NaN (here `none`) when
every matching value is missing.  (The `'date'`/`'value'`
column-presence check is vacuous in the typed embedding.) -/
def seasonalCore (df : List TRow) (season_lower : String) : Except Err Val :=
  if season_lower ∈ ["winter", "spring", "summer", "fall", "autumn"] then
    let season_key := if season_lower = "autumn" then "fall" else season_lower
    let seasonal_data :=
      df.filter fun r => decide (r.date.month ∈ season_months season_key)
    if seasonal_data.length = 0 then .error .noDataForSeason
    else
      let valid := seasonal_data.filterMap TRow.value
      .ok (if valid.length = 0 then none else some (valid.sum / valid.length))
  else .error .invalidSeason

/-- Python's `str.lower()`, modelled as per-character lowercasing of the
string's characters; on the ASCII season names the two agree.  (Core's
`String.toLower` is the same map, phrased over byte positions.) -/
def strLower (s : String) : String := ⟨s.data.map Char.toLower⟩

/-- `calculate_seasonal_average` (trends.py:103-187): lower-cases the
season name once (`season_lower = season.lower()`, trends.py:147) and
proceeds on the normalised name. -/
def calculate_seasonal_average (df : List TRow) (season : String) :
    Except Err Val :=
  seasonalCore df (strLower season)

/-! ## Helper lemmas -/

theorem bandMatches_iff {q : ℚ} {b : Breakpoint} :
    bandMatches q b = true ↔ b.c_low ≤ q ∧ q ≤ b.c_high := by
  simp [bandMatches]

theorem find?_breakpoints_eq_none {q : ℚ} (h : (500.4 : ℚ) < q) :
    breakpoints.find? (bandMatches q) = none := by
  rw [List.find?_eq_none]
  intro b hb
  simp only [breakpoints, List.mem_cons, List.not_mem_nil, or_false] at hb
  rcases hb with rfl | rfl | rfl | rfl | rfl | rfl <;>
    · simp only [bandMatches_iff, not_and, not_le]
      intro h1
      linarith

theorem aqi_clamp {q : ℚ} (h : (500.4 : ℚ) < q) :
    calculate_aqi q =
      .ok ⟨500, "Hazardous", "#7E0023",
        "Health warnings of emergency conditions. Entire population more likely to be affected."⟩ := by
  have h0 : ¬ q < 0 := by linarith
  simp only [calculate_aqi, find?_breakpoints_eq_none h, if_neg h0, if_pos h]

theorem exists_band_of_tenths (k : ℕ) (hk : k ≤ 5004) :
    ∃ b ∈ breakpoints, bandMatches ((k : ℚ) / 10) b = true := by
  have pos : (0 : ℚ) < 10 := by norm_num
  by_cases h1 : k ≤ 120
  · refine ⟨⟨0.0, 12.0, 0, 50, "Good", "#00E400",
      "Air quality is satisfactory."⟩, by simp [breakpoints], ?_⟩
    rw [bandMatches_iff]
    refine ⟨?_, ?_⟩
    · show (0.0 : ℚ) ≤ (k : ℚ) / 10
      norm_num
      positivity
    · show (k : ℚ) / 10 ≤ (12.0 : ℚ)
      rw [div_le_iff₀ pos]
      norm_num
      exact_mod_cast h1
  by_cases h2 : k ≤ 354
  · refine ⟨⟨12.1, 35.4, 51, 100, "Moderate", "#FFFF00",
      "Acceptable for most, but sensitive groups may be affected."⟩, by simp [breakpoints], ?_⟩
    rw [bandMatches_iff]
    refine ⟨?_, ?_⟩
    · show (12.1 : ℚ) ≤ (k : ℚ) / 10
      rw [le_div_iff₀ pos]
      norm_num
      exact_mod_cast by omega
    · show (k : ℚ) / 10 ≤ (35.4 : ℚ)
      rw [div_le_iff₀ pos]
      norm_num
      exact_mod_cast h2
  by_cases h3 : k ≤ 554
  · refine ⟨⟨35.5, 55.4, 101, 150, "Unhealthy for Sensitive Groups", "#FF7E00",
      "Sensitive groups may experience health effects."⟩, by simp [breakpoints], ?_⟩
    rw [bandMatches_iff]
    refine ⟨?_, ?_⟩
    · show (35.5 : ℚ) ≤ (k : ℚ) / 10
      rw [le_div_iff₀ pos]
      norm_num
      exact_mod_cast by omega
    · show (k : ℚ) / 10 ≤ (55.4 : ℚ)
      rw [div_le_iff₀ pos]
      norm_num
      exact_mod_cast h3
  by_cases h4 : k ≤ 1504
  · refine ⟨⟨55.5, 150.4, 151, 200, "Unhealthy", "#FF0000",
      "Everyone may begin to experience health effects."⟩, by simp [breakpoints], ?_⟩
    rw [bandMatches_iff]
    refine ⟨?_, ?_⟩
    · show (55.5 : ℚ) ≤ (k : ℚ) / 10
      rw [le_div_iff₀ pos]
      norm_num
      exact_mod_cast by omega
    · show (k : ℚ) / 10 ≤ (150.4 : ℚ)
      rw [div_le_iff₀ pos]
      norm_num
      exact_mod_cast h4
  by_cases h5 : k ≤ 2504
  · refine ⟨⟨150.5, 250.4, 201, 300, "Very Unhealthy", "#8F3F97",
      "Health alert: everyone may experience serious effects."⟩, by simp [breakpoints], ?_⟩
    rw [bandMatches_iff]
    refine ⟨?_, ?_⟩
    · show (150.5 : ℚ) ≤ (k : ℚ) / 10
      rw [le_div_iff₀ pos]
      norm_num
      exact_mod_cast by omega
    · show (k : ℚ) / 10 ≤ (250.4 : ℚ)
      rw [div_le_iff₀ pos]
      norm_num
      exact_mod_cast h5
  · refine ⟨⟨250.5, 500.4, 301, 500, "Hazardous", "#7E0023",
      "Health warnings of emergency conditions."⟩, by simp [breakpoints], ?_⟩
    rw [bandMatches_iff]
    refine ⟨?_, ?_⟩
    · show (250.5 : ℚ) ≤ (k : ℚ) / 10
      rw [le_div_iff₀ pos]
      norm_num
      exact_mod_cast by omega
    · show (k : ℚ) / 10 ≤ (500.4 : ℚ)
      rw [div_le_iff₀ pos]
      norm_num
      exact_mod_cast hk

theorem consecRuns_mem (p : α → Bool) (l : List α) :
    ∀ r ∈ consecRuns p l, r ≠ [] ∧ ∀ a ∈ r, p a = true := by
  induction l using consecRuns.induct p with
  | case1 => simp [consecRuns]
  | case2 x xs hx ih =>
    intro r hr
    rw [consecRuns, if_pos hx] at hr
    rcases List.mem_cons.mp hr with rfl | hr
    · refine ⟨List.cons_ne_nil _ _, ?_⟩
      intro a ha
      rcases List.mem_cons.mp ha with rfl | ha
      · exact hx
      · exact List.mem_takeWhile_imp ha
    · exact ih r hr
  | case3 x xs hx ih =>
    intro r hr
    rw [consecRuns, if_neg hx] at hr
    exact ih r hr

theorem consecRuns_length_sum (p : α → Bool) (l : List α) :
    ((consecRuns p l).map List.length).sum = l.countP p := by
  induction l using consecRuns.induct p with
  | case1 => simp [consecRuns]
  | case2 x xs hx ih =>
    rw [consecRuns, if_pos hx]
    have hsplit : xs.countP p =
        (xs.takeWhile p).countP p + (xs.dropWhile p).countP p := by
      conv_lhs => rw [← List.takeWhile_append_dropWhile (p := p) (l := xs)]
      rw [List.countP_append]
    have htw : (xs.takeWhile p).countP p = (xs.takeWhile p).length :=
      List.countP_eq_length.mpr fun a ha => List.mem_takeWhile_imp ha
    rw [List.countP_cons_of_pos _ _ hx]
    simp only [List.map_cons, List.sum_cons, List.length_cons, ih]
    omega
  | case3 x xs hx ih =>
    rw [consecRuns, if_neg hx, ih, List.countP_cons_of_neg _ _ hx]

theorem chain'_cons_takeWhile {R : α → α → Prop} (p : α → Bool) :
    ∀ {x : α} {xs : List α}, List.Chain' R (x :: xs) →
      List.Chain' R (x :: xs.takeWhile p) := by
  intro x xs
  induction xs generalizing x with
  | nil => intro _; simp
  | cons y t ih =>
    intro h
    rw [List.takeWhile_cons]
    rw [List.chain'_cons] at h
    by_cases hy : p y
    · rw [if_pos hy, List.chain'_cons]
      exact ⟨h.1, ih h.2⟩
    · rw [if_neg hy]
      simp

theorem consecRuns_chain' {R : α → α → Prop} (p : α → Bool) (l : List α) :
    List.Chain' R l → ∀ r ∈ consecRuns p l, List.Chain' R r := by
  induction l using consecRuns.induct p with
  | case1 => simp [consecRuns]
  | case2 x xs hx ih =>
    intro hl r hr
    rw [consecRuns, if_pos hx] at hr
    rcases List.mem_cons.mp hr with rfl | hr
    · exact chain'_cons_takeWhile p hl
    · exact ih (hl.tail.suffix (List.dropWhile_suffix p)) r hr
  | case3 x xs hx ih =>
    intro hl r hr
    rw [consecRuns, if_neg hx] at hr
    exact ih hl.tail r hr

theorem chain'_daily_getLast :
    ∀ {t : List Obs} {x y : Obs}, List.Chain' daily (x :: t) →
      (x :: t).getLast? = some y → y.date = x.date + t.length := by
  intro t
  induction t with
  | nil =>
    intro x y _ hy
    simp only [List.getLast?_singleton, Option.some.injEq] at hy
    subst hy
    simp
  | cons z t ih =>
    intro x y h hy
    rw [List.chain'_cons] at h
    have hz : (z :: t).getLast? = some y := by
      simpa [List.getLast?_cons_cons] using hy
    have := ih h.2 hz
    have hd : z.date = x.date + 1 := h.1
    simp only [List.length_cons]
    push_cast
    omega

theorem mkEpisode_duration_eq {r : List Obs} (hne : r ≠ [])
    (hch : List.Chain' daily r) :
    ((mkEpisode r).duration : ℤ) =
      (mkEpisode r).end_date - (mkEpisode r).start_date + 1 := by
  obtain ⟨x, t, rfl⟩ := List.exists_cons_of_ne_nil hne
  obtain ⟨y, hy⟩ := Option.isSome_iff_exists.mp
    (List.getLast?_isSome.mpr (List.cons_ne_nil x t))
  have hdate := chain'_daily_getLast hch hy
  simp only [mkEpisode, List.head?_cons, Option.map_some', Option.getD_some,
    List.length_cons, hy]
  rw [hdate]
  push_cast
  ring

theorem le_listMax {l : List ℚ} {x : ℚ} (hx : x ∈ l) : x ≤ listMax l := by
  induction l with
  | nil => cases hx
  | cons y t ih =>
    rw [listMax]
    rcases List.mem_cons.mp hx with rfl | hx
    · exact le_max_left _ _
    · exact le_trans (ih hx) (le_max_right _ _)

theorem mean_le_listMax {l : List ℚ} (h : l ≠ []) :
    l.sum / l.length ≤ listMax l := by
  have hpos : (0 : ℚ) < l.length := by
    exact_mod_cast List.length_pos.mpr h
  rw [div_le_iff₀ hpos]
  calc l.sum ≤ l.length • listMax l :=
        List.sum_le_card_nsmul l _ fun x hx => le_listMax hx
    _ = listMax l * l.length := by rw [nsmul_eq_mul]; ring

theorem vals_ne_nil {t : ℚ} {r : List Obs} (hne : r ≠ [])
    (hall : ∀ o ∈ r, exceeds t o = true) : vals r ≠ [] := by
  obtain ⟨x, t', rfl⟩ := List.exists_cons_of_ne_nil hne
  have hx := hall x (List.mem_cons_self x t')
  rw [exceeds] at hx
  cases hpm : x.pm with
  | none => rw [hpm] at hx; cases hx
  | some v => simp [vals, List.filterMap_cons, hpm]

theorem mkEpisode_max_ge_mean {t : ℚ} {r : List Obs} (hne : r ≠ [])
    (hall : ∀ o ∈ r, exceeds t o = true) :
    (mkEpisode r).mean_pm25 ≤ (mkEpisode r).max_pm25 := by
  show (vals r).sum / (vals r).length ≤ listMax (vals r)
  exact mean_le_listMax (vals_ne_nil hne hall)

theorem ex7_at_40 :
    identify_consecutive_exceedances ex7 40 =
      .ok [⟨6, 7, 2, 65, 62.5⟩, ⟨3, 4, 2, 50, 47.5⟩] := by
  norm_num [identify_consecutive_exceedances, ex7, List.insertionSort,
    List.orderedInsert, dateLe, epLe, consecRuns, List.takeWhile, List.dropWhile,
    exceeds, mkEpisode, vals, listMax, max_def, List.filterMap_cons]

theorem gapped_run :
    identify_consecutive_exceedances [⟨0, some 50⟩, ⟨2, some 50⟩] 40 =
      .ok [⟨0, 2, 2, 50, 50⟩] := by
  norm_num [identify_consecutive_exceedances, List.insertionSort,
    List.orderedInsert, dateLe, epLe, consecRuns, List.takeWhile, List.dropWhile,
    exceeds, mkEpisode, vals, listMax, max_def, List.filterMap_cons]

/-! ## Claim theorems -/

/-- C1, counterexample: the breakpoint table has a gap between the
`Good` band (upper bound 12.0) and the `Moderate` band (lower bound
12.1); the finite non-negative concentration 12.05 matches no band and
is not above 500.4, so `calculate_aqi` reaches the final
"Unable to calculate AQI" error branch — the claim that this branch is
unreachable over the documented domain is false. -/
theorem aqi_gap_counterexample :
    calculate_aqi 12.05 = .error .unableToCalculate := by
  norm_num [calculate_aqi, breakpoints, bandMatches, List.find?]

/-- C1, amended: `calculate_aqi` never double-matches — a concentration
lies in at most one breakpoint band — and it is total on the
EPA-reporting grid: for every non-negative multiple of 0.1 the call
succeeds (a band matches up to 500.4, the clamp applies above).  Only
concentrations strictly inside a gap between the inclusive band bounds
(such as 12.05) reach the final error branch. -/
theorem aqi_total_on_tenths_and_no_double_match :
    (∀ k : ℕ, ∃ r, calculate_aqi ((k : ℚ) / 10) = .ok r) ∧
    (∀ q : ℚ, ∀ b₁ ∈ breakpoints, ∀ b₂ ∈ breakpoints,
      bandMatches q b₁ = true → bandMatches q b₂ = true → b₁ = b₂) := by
  constructor
  · intro k
    have h0 : ¬ ((k : ℚ) / 10 < 0) := not_lt.mpr (by positivity)
    by_cases h5 : 5004 < k
    · refine ⟨_, aqi_clamp ?_⟩
      rw [lt_div_iff₀ (by norm_num : (0:ℚ) < 10)]
      norm_num
      exact_mod_cast h5
    · obtain ⟨b, hb, hm⟩ := exists_band_of_tenths k (by omega)
      obtain ⟨b', hb'⟩ := Option.isSome_iff_exists.mp
        (List.find?_isSome.mpr ⟨b, hb, hm⟩)
      refine ⟨⟨pyRound
          (((b'.i_high - b'.i_low : ℤ) : ℚ) / (b'.c_high - b'.c_low)
            * ((k : ℚ) / 10 - b'.c_low) + (b'.i_low : ℚ)),
          b'.category, b'.color, b'.health_message⟩, ?_⟩
      simp only [calculate_aqi, hb', if_neg h0]
  · intro q b₁ hb₁ b₂ hb₂ hm₁ hm₂
    rw [bandMatches_iff] at hm₁ hm₂
    simp only [breakpoints, List.mem_cons, List.not_mem_nil, or_false] at hb₁ hb₂
    rcases hb₁ with rfl | rfl | rfl | rfl | rfl | rfl <;>
      rcases hb₂ with rfl | rfl | rfl | rfl | rfl | rfl <;>
      first
        | rfl
        | (exfalso
           obtain ⟨ha, hb⟩ := hm₁
           obtain ⟨hc, hd⟩ := hm₂
           simp only at ha hb hc hd
           linarith)

/-- C1, witness for the amended theorem: totality at `k = 120`
(concentration 12.0) and uniqueness instantiated at concentration 5 in
the `Good` band. -/
theorem aqi_total_on_tenths_witness :
    (∃ r, calculate_aqi ((120 : ℚ) / 10) = .ok r) ∧
    ((⟨0.0, 12.0, 0, 50, "Good", "#00E400",
        "Air quality is satisfactory."⟩ : Breakpoint) =
      ⟨0.0, 12.0, 0, 50, "Good", "#00E400", "Air quality is satisfactory."⟩) :=
  ⟨aqi_total_on_tenths_and_no_double_match.1 120,
   aqi_total_on_tenths_and_no_double_match.2 5
     _ (by simp [breakpoints]) _ (by simp [breakpoints])
     (by rw [bandMatches_iff]; constructor <;> norm_num)
     (by rw [bandMatches_iff]; constructor <;> norm_num)⟩

/-- C5: `calculate_aqi 12.0` is `Good` with index 50, `calculate_aqi
35.4` is `Moderate` with index 100, `calculate_aqi (-5)` fails with the
invalid-input error, and every concentration strictly above 500.4 is
clamped to `Hazardous` with index exactly 500. -/
theorem aqi_examples_and_clamp :
    calculate_aqi 12.0 =
      .ok ⟨50, "Good", "#00E400", "Air quality is satisfactory."⟩ ∧
    calculate_aqi 35.4 =
      .ok ⟨100, "Moderate", "#FFFF00",
        "Acceptable for most, but sensitive groups may be affected."⟩ ∧
    calculate_aqi (-5) = .error .invalidInput ∧
    (∀ q : ℚ, 500.4 < q → calculate_aqi q =
      .ok ⟨500, "Hazardous", "#7E0023",
        "Health warnings of emergency conditions. Entire population more likely to be affected."⟩) := by
  refine ⟨?_, ?_, ?_, fun q h => aqi_clamp h⟩
  · norm_num [calculate_aqi, breakpoints, bandMatches, List.find?, pyRound, ratFloor]
  · norm_num [calculate_aqi, breakpoints, bandMatches, List.find?, pyRound, ratFloor]
  · norm_num [calculate_aqi]

/-- C5, witness: the clamp applied at the concrete concentration 600. -/
theorem aqi_examples_and_clamp_witness :
    calculate_aqi 600 =
      .ok ⟨500, "Hazardous", "#7E0023",
        "Health warnings of emergency conditions. Entire population more likely to be affected."⟩ :=
  aqi_examples_and_clamp.2.2.2 600 (by norm_num)

/-- C8: for a fixed input, the exceedance count is monotonically
non-increasing as the threshold increases. -/
theorem exceedance_count_antitone (values : List Val) (t₁ t₂ : ℚ)
    (h : t₁ ≤ t₂) :
    calculate_exceedance_count values t₂ ≤ calculate_exceedance_count values t₁ := by
  unfold calculate_exceedance_count
  apply List.countP_mono_left
  intro v _ hv
  simp only [decide_eq_true_eq] at hv ⊢
  linarith

/-- C8, witness: thresholds 5 ≤ 15 on a concrete two-element input. -/
theorem exceedance_count_antitone_witness :
    calculate_exceedance_count [some 10, some 20] 15 ≤
      calculate_exceedance_count [some 10, some 20] 5 :=
  exceedance_count_antitone [some 10, some 20] 5 15 (by norm_num)

/-- C9: `calculate_seasonal_average` treats `'autumn'` as an alias of
`'fall'`, and the season argument is case-insensitive: any string whose
lowercasing is a valid season name gives the same result as that
lowercase form. -/
theorem seasonal_autumn_fall_case_insensitive :
    (∀ df : List TRow,
      calculate_seasonal_average df "autumn" = calculate_seasonal_average df "fall") ∧
    (∀ df : List TRow, ∀ s : String,
      strLower s ∈ ["winter", "spring", "summer", "fall", "autumn"] →
      calculate_seasonal_average df s = calculate_seasonal_average df (strLower s)) := by
  constructor
  · intro df
    show seasonalCore df (strLower "autumn") = seasonalCore df (strLower "fall")
    rw [show strLower "autumn" = "autumn" from by decide,
        show strLower "fall" = "fall" from by decide]
    simp [seasonalCore]
  · intro df s hs
    show seasonalCore df (strLower s) = seasonalCore df (strLower (strLower s))
    simp only [List.mem_cons, List.not_mem_nil, or_false] at hs
    rcases hs with h | h | h | h | h <;> rw [h]
    · rw [show strLower "winter" = "winter" from by decide]
    · rw [show strLower "spring" = "spring" from by decide]
    · rw [show strLower "summer" = "summer" from by decide]
    · rw [show strLower "fall" = "fall" from by decide]
    · rw [show strLower "autumn" = "autumn" from by decide]

/-- C9, witness: the alias on a one-row October frame, and
case-insensitivity at `"WINTER"`. -/
theorem seasonal_autumn_fall_witness :
    (calculate_seasonal_average [⟨⟨2024, 10, 1⟩, some 7⟩] "autumn" =
      calculate_seasonal_average [⟨⟨2024, 10, 1⟩, some 7⟩] "fall") ∧
    (calculate_seasonal_average [⟨⟨2024, 10, 1⟩, some 7⟩] "WINTER" =
      calculate_seasonal_average [⟨⟨2024, 10, 1⟩, some 7⟩] (strLower "WINTER")) :=
  ⟨seasonal_autumn_fall_case_insensitive.1 _,
   seasonal_autumn_fall_case_insensitive.2 _ "WINTER" (by decide)⟩

/-- C4, counterexample: on a frame whose only (December) row carries a
missing value, `calculate_seasonal_average(df, 'winter')` does not raise
— the row-count check passes and the pandas mean of the all-NaN column
is returned as NaN (`.ok none`); and `calculate_exceedance_count` on an
empty input returns the plain count 0 rather than raising. -/
theorem no_sentinel_counterexample :
    calculate_seasonal_average [⟨⟨2024, 12, 1⟩, none⟩] "winter" = .ok none ∧
    calculate_exceedance_count [] 10 = 0 := by
  constructor
  · decide
  · rfl

/-- C4, amended: the operations with an explicit emptiness check do
raise typed errors (`calculate_daily_mean` raises EmptyInput on empty
input and AllMissing when every value is missing;
`calculate_seasonal_average` raises NoDataForSeason when no row matches
the season), but `calculate_seasonal_average` returns NaN — not an
error — when the matching season rows are present and all missing, and
`calculate_exceedance_count` returns the count 0 on empty input. -/
theorem typed_errors_and_sentinels :
    calculate_daily_mean [] = .error .emptyInput ∧
    (∀ values : List Val, values ≠ [] → values.filterMap id = [] →
      calculate_daily_mean values = .error .allMissing) ∧
    (∀ df : List TRow,
      (df.filter fun r => decide (r.date.month ∈ season_months "winter")).length = 0 →
      calculate_seasonal_average df "winter" = .error .noDataForSeason) ∧
    (∀ df : List TRow, df ≠ [] →
      (∀ r ∈ df, r.date.month ∈ season_months "winter") →
      (∀ r ∈ df, r.value = none) →
      calculate_seasonal_average df "winter" = .ok none) ∧
    (∀ t : ℚ, calculate_exceedance_count [] t = 0) := by
  refine ⟨rfl, ?_, ?_, ?_, fun t => rfl⟩
  · intro values h1 h2
    have hl : values.length ≠ 0 := by simpa [List.length_eq_zero] using h1
    simp [calculate_daily_mean, h2, hl]
  · intro df h
    show seasonalCore df (strLower "winter") = _
    rw [show strLower "winter" = "winter" from by decide]
    simp [seasonalCore, h]
  · intro df h1 h2 h3
    show seasonalCore df (strLower "winter") = _
    rw [show strLower "winter" = "winter" from by decide]
    have hfilter : (df.filter fun r => decide (r.date.month ∈ season_months "winter")) = df :=
      List.filter_eq_self.mpr fun r hr => by simpa using h2 r hr
    have hvalid : df.filterMap TRow.value = [] :=
      List.filterMap_eq_nil_iff.mpr fun r hr => h3 r hr
    have hl : df.length ≠ 0 := by simpa [List.length_eq_zero] using h1
    simp [seasonalCore, hfilter, hvalid, hl]

/-- C4, witness for the amended theorem at one-row concrete frames. -/
theorem typed_errors_and_sentinels_witness :
    calculate_daily_mean [none] = .error .allMissing ∧
    calculate_seasonal_average [⟨⟨2024, 6, 1⟩, some 5⟩] "winter" = .error .noDataForSeason ∧
    calculate_seasonal_average [⟨⟨2024, 12, 1⟩, none⟩] "winter" = .ok none :=
  ⟨typed_errors_and_sentinels.2.1 [none] (by simp) (by simp),
   typed_errors_and_sentinels.2.2.1 _ (by decide),
   typed_errors_and_sentinels.2.2.2.1 _ (by simp) (by decide) (by decide)⟩

/-- C2, counterexample: on the 7-day series `[10,40,45,50,15,60,65]`
with threshold 40 the comparison is strict, so day 2 (value 40) does not
exceed; the result is two episodes of duration 2 each — there is no
duration-3 episode, contrary to the claim (whose figures correspond to
threshold 35, the value used in the source's docstring example). -/
theorem consecutive_example_counterexample :
    identify_consecutive_exceedances ex7 40 =
      .ok [⟨6, 7, 2, 65, 62.5⟩, ⟨3, 4, 2, 50, 47.5⟩] ∧
    ∀ e ∈ [(⟨6, 7, 2, 65, 62.5⟩ : Episode), ⟨3, 4, 2, 50, 47.5⟩],
      e.duration ≠ 3 := by
  refine ⟨ex7_at_40, ?_⟩
  intro e he
  rcases List.mem_cons.mp he with rfl | he
  · decide
  · rcases List.mem_cons.mp he with rfl | he
    · decide
    · cases he

/-- C2, amended: on the 7-day gapless series `[10,40,45,50,15,60,65]`
with threshold 40, `identify_consecutive_exceedances` returns exactly 2
episodes, both of duration 2: days 6–7 (max 65, mean 62.5) first and
days 3–4 (max 50, mean 47.5) second — ordered by the max-descending
tie-break since the durations are equal. -/
theorem consecutive_example_amended :
    identify_consecutive_exceedances ex7 40 =
      .ok [⟨6, 7, 2, 65, 62.5⟩, ⟨3, 4, 2, 50, 47.5⟩] :=
  ex7_at_40

/-- C3, counterexample: the duration invariant fails on a series with a
date gap.  Dates 0 and 2 (day 1 missing) both carry value 50; with
threshold 40 the mask never flips, so the code merges them into one
episode of duration 2 — but `end_date - start_date + 1 = 3`. -/
theorem episode_duration_counterexample :
    identify_consecutive_exceedances [⟨0, some 50⟩, ⟨2, some 50⟩] 40 =
      .ok [⟨0, 2, 2, 50, 50⟩] ∧
    ¬ (((⟨0, 2, 2, 50, 50⟩ : Episode).duration : ℤ) =
        (⟨0, 2, 2, 50, 50⟩ : Episode).end_date -
          (⟨0, 2, 2, 50, 50⟩ : Episode).start_date + 1) :=
  ⟨gapped_run, by decide⟩

/-- C3, amended: for every input series and non-negative threshold,
every returned episode satisfies `mean_pm25 ≤ max_pm25` and the episodes
are sorted by duration descending then max value descending; and
whenever the series is gapless (consecutive daily dates), every episode
additionally satisfies `duration = end_date - start_date + 1`. -/
theorem episode_invariants (df : List Obs) (t : ℚ) (ht : 0 ≤ t)
    (r : List Episode) (hr : identify_consecutive_exceedances df t = .ok r) :
    (∀ e ∈ r, e.mean_pm25 ≤ e.max_pm25) ∧
    List.Sorted epLe r ∧
    (List.Chain' daily df →
      ∀ e ∈ r, (e.duration : ℤ) = e.end_date - e.start_date + 1) := by
  rw [identify_consecutive_exceedances, if_neg (not_lt.mpr ht)] at hr
  by_cases hemp : df.isEmpty
  · rw [if_pos hemp] at hr
    exact absurd hr (by simp)
  · rw [if_neg hemp, Except.ok.injEq] at hr
    subst hr
    refine ⟨?_, List.sorted_insertionSort epLe _, ?_⟩
    · intro e he
      rw [List.mem_insertionSort, List.mem_map] at he
      obtain ⟨run, hrun, rfl⟩ := he
      obtain ⟨hne, hall⟩ := consecRuns_mem (exceeds t) _ run hrun
      exact mkEpisode_max_ge_mean hne hall
    · intro hchain e he
      rw [List.mem_insertionSort, List.mem_map] at he
      obtain ⟨run, hrun, rfl⟩ := he
      obtain ⟨hne, hall⟩ := consecRuns_mem (exceeds t) _ run hrun
      have hch2 : List.Chain' dateLe df :=
        List.Chain'.imp (fun a b hab => by rw [dateLe, hab]; omega) hchain
      have hsorted_eq : df.insertionSort dateLe = df :=
        List.Sorted.insertionSort_eq (List.chain'_iff_pairwise.mp hch2)
      rw [hsorted_eq] at hrun
      have hrc := consecRuns_chain' (exceeds t) df hchain run hrun
      exact mkEpisode_duration_eq hne hrc

/-- C3, witness for the amended theorem: the invariants instantiated on
the concrete 7-day series with threshold 40. -/
theorem episode_invariants_witness :
    (∀ e ∈ [(⟨6, 7, 2, 65, 62.5⟩ : Episode), ⟨3, 4, 2, 50, 47.5⟩],
      e.mean_pm25 ≤ e.max_pm25) ∧
    List.Sorted epLe [(⟨6, 7, 2, 65, 62.5⟩ : Episode), ⟨3, 4, 2, 50, 47.5⟩] ∧
    (List.Chain' daily ex7 →
      ∀ e ∈ [(⟨6, 7, 2, 65, 62.5⟩ : Episode), ⟨3, 4, 2, 50, 47.5⟩],
        (e.duration : ℤ) = e.end_date - e.start_date + 1) :=
  episode_invariants ex7 40 (by norm_num) _ ex7_at_40

/-- C10: whenever `identify_consecutive_exceedances` succeeds on a
non-empty series with a non-negative threshold, the durations of the
returned episodes sum to exactly the number of observations whose value
strictly exceeds the threshold: the runs partition the exceeding rows. -/
theorem episodes_duration_sum (df : List Obs) (t : ℚ) (hdf : df ≠ [])
    (ht : 0 ≤ t) :
    ∃ r, identify_consecutive_exceedances df t = .ok r ∧
      (r.map Episode.duration).sum = df.countP (exceeds t) := by
  have hemp : ¬ (df.isEmpty = true) := by simp [List.isEmpty_iff, hdf]
  refine ⟨((consecRuns (exceeds t) (df.insertionSort dateLe)).map
    mkEpisode).insertionSort epLe, ?_, ?_⟩
  · rw [identify_consecutive_exceedances, if_neg (not_lt.mpr ht), if_neg hemp]
  · calc ((((consecRuns (exceeds t) (df.insertionSort dateLe)).map
          mkEpisode).insertionSort epLe).map Episode.duration).sum
        = (((consecRuns (exceeds t) (df.insertionSort dateLe)).map
            mkEpisode).map Episode.duration).sum :=
          ((List.perm_insertionSort epLe _).map Episode.duration).sum_eq
      _ = ((consecRuns (exceeds t) (df.insertionSort dateLe)).map
            List.length).sum := by
          rw [List.map_map]
          rfl
      _ = (df.insertionSort dateLe).countP (exceeds t) :=
          consecRuns_length_sum _ _
      _ = df.countP (exceeds t) :=
          (List.perm_insertionSort dateLe df).countP_eq _

/-- C10, witness: the partition identity on the concrete 7-day series:
4 observations exceed 40 and the episode durations are 2 and 2. -/
theorem episodes_duration_sum_witness :
    ∃ r, identify_consecutive_exceedances ex7 40 = .ok r ∧
      (r.map Episode.duration).sum = ex7.countP (exceeds 40) :=
  episodes_duration_sum ex7 40 (by simp [ex7]) (by norm_num)

/-- C6: `identify_extremes_threshold` succeeds on every non-empty series
with a non-negative threshold and returns exactly the observations whose
value strictly exceeds the threshold (values equal to the threshold are
excluded, since the returned rows are a permutation of the
strictly-greater filter), sorted by value descending; and on the
concrete series `[10,20,...,100]` with threshold 50 it returns exactly
the five rows with values 100, 90, 80, 70, 60 in that order. -/
theorem extremes_threshold_spec :
    (∀ (df : List Obs) (t : ℚ), df ≠ [] → 0 ≤ t →
      ∃ r, identify_extremes_threshold df t = .ok r ∧
        (∀ o ∈ r, ∃ v, o.pm = some v ∧ t < v) ∧
        List.Sorted valGe r ∧
        r.Perm (df.filter (exceeds t))) ∧
    identify_extremes_threshold ex10 50 =
      .ok [⟨10, some 100⟩, ⟨9, some 90⟩, ⟨8, some 80⟩,
           ⟨7, some 70⟩, ⟨6, some 60⟩] := by
  constructor
  · intro df t hdf ht
    have hemp : ¬ (df.isEmpty = true) := by simp [List.isEmpty_iff, hdf]
    refine ⟨(df.filter (exceeds t)).insertionSort valGe, ?_, ?_,
      List.sorted_insertionSort valGe _, List.perm_insertionSort valGe _⟩
    · rw [identify_extremes_threshold, if_neg (not_lt.mpr ht), if_neg hemp]
    · intro o ho
      rw [List.mem_insertionSort] at ho
      obtain ⟨-, hex⟩ := List.mem_filter.mp ho
      rw [exceeds] at hex
      cases hpm : o.pm with
      | none => rw [hpm] at hex; cases hex
      | some v =>
        rw [hpm] at hex
        exact ⟨v, rfl, of_decide_eq_true hex⟩
  · norm_num [identify_extremes_threshold, ex10, exceeds, List.insertionSort,
      List.orderedInsert, valGe, List.filter]

/-- C6, witness: the universal part applied to the concrete ten-day
series with threshold 50. -/
theorem extremes_threshold_witness :
    ∃ r, identify_extremes_threshold ex10 50 = .ok r ∧
      (∀ o ∈ r, ∃ v, o.pm = some v ∧ (50 : ℚ) < v) ∧
      List.Sorted valGe r ∧
      r.Perm (ex10.filter (exceeds 50)) :=
  extremes_threshold_spec.1 ex10 50 (by simp [ex10]) (by norm_num)

/-- C7: for `1 ≤ window ≤ length(values)`, `calculate_rolling_average`
succeeds; the output has the length of the input; the first `window-1`
entries are missing; every later entry is missing exactly when the
trailing window-sized slice contains a missing value, and is otherwise
the arithmetic mean of that slice; for `window < 1` or
`window > length(values)` the call fails with the invalid-window
error. -/
theorem rolling_average_spec (values : List Val) (window : ℤ)
    (h1 : 1 ≤ window) (h2 : window ≤ (values.length : ℤ)) :
    ∃ out, calculate_rolling_average values window = .ok out ∧
      out.length = values.length ∧
      (∀ i : ℕ, i + 1 < window.toNat → out[i]? = some none) ∧
      (∀ i : ℕ, window.toNat ≤ i + 1 → i < values.length →
        out[i]? = some (
          if none ∈ (values.drop (i + 1 - window.toNat)).take window.toNat
          then none
          else some ((((values.drop (i + 1 - window.toNat)).take
            window.toNat).filterMap id).sum / window.toNat))) ∧
      (∀ w' : ℤ, w' < 1 ∨ (values.length : ℤ) < w' →
        calculate_rolling_average values w' = .error .invalidWindow) := by
  have hwlen : window.toNat ≤ values.length := by omega
  refine ⟨(List.range values.length).map fun i =>
    if i + 1 < window.toNat then none
    else
      if ((values.drop (i + 1 - window.toNat)).take window.toNat).any
          (fun v => v.isNone) then none
      else some ((((values.drop (i + 1 - window.toNat)).take
        window.toNat).filterMap id).sum / (window.toNat : ℚ)),
    ?_, ?_, ?_, ?_, ?_⟩
  · rw [calculate_rolling_average, if_neg (not_lt.mpr h1),
      if_neg (not_lt.mpr h2)]
  · simp
  · intro i hi
    have hilen : i < values.length := by omega
    rw [List.getElem?_map, List.getElem?_range hilen, Option.map_some',
      if_pos hi]
  · intro i hle hlt
    rw [List.getElem?_map, List.getElem?_range hlt, Option.map_some',
      if_neg (by omega : ¬ i + 1 < window.toNat), Option.some.injEq]
    by_cases hmem :
      none ∈ (values.drop (i + 1 - window.toNat)).take window.toNat
    · rw [if_pos (List.any_eq_true.mpr ⟨none, hmem, rfl⟩), if_pos hmem]
    · rw [if_neg ?_, if_neg hmem]
      rw [List.any_eq_true]
      rintro ⟨x, hx, hxn⟩
      exact hmem (Option.isNone_iff_eq_none.mp hxn ▸ hx)
  · intro w' hw'
    by_cases hw1 : w' < 1
    · rw [calculate_rolling_average, if_pos hw1]
    · rcases hw' with h | h
      · exact absurd h hw1
      · rw [calculate_rolling_average, if_neg hw1, if_pos h]

/-- C7, witness: instantiated on `[1, 2, 3]` with window 2. -/
theorem rolling_average_spec_witness :
    ∃ out, calculate_rolling_average
        ([some 1, some 2, some 3] : List Val) 2 = .ok out ∧
      out.length = ([some 1, some 2, some 3] : List Val).length ∧
      (∀ i : ℕ, i + 1 < (2 : ℤ).toNat → out[i]? = some none) ∧
      (∀ i : ℕ, (2 : ℤ).toNat ≤ i + 1 →
        i < ([some 1, some 2, some 3] : List Val).length →
        out[i]? = some (
          if none ∈ (([some 1, some 2, some 3] : List Val).drop
            (i + 1 - (2 : ℤ).toNat)).take (2 : ℤ).toNat
          then none
          else some ((((([some 1, some 2, some 3] : List Val).drop
            (i + 1 - (2 : ℤ).toNat)).take (2 : ℤ).toNat).filterMap id).sum /
              ((2 : ℤ).toNat : ℚ)))) ∧
      (∀ w' : ℤ, w' < 1 ∨ (([some 1, some 2, some 3] : List Val).length : ℤ) < w' →
        calculate_rolling_average ([some 1, some 2, some 3] : List Val) w' =
          .error .invalidWindow) :=
  rolling_average_spec [some 1, some 2, some 3] 2 (by norm_num) (by norm_num)

end AirQuality
